import Mathlib

/-!
Verification of the rsqlite driver (a database/sql driver for rqlite written
in Go) against its natural-language specification.  The development shallowly
embeds the driver's pure control flow:

* `ParseDSN` (driver.go) — connection-string parsing into a `Config`;
* `ClusterView` / `DiscoverLeader` / `ForceRefresh` / `GetAllNodes` /
  `SelectBestNode` (leader.go) — the cluster topology tracker;
* `connect` / `connectToAnyNode` / `reconnect` / `ExecContext`
  (connection.go) — the resilient operation executor with its bounded
  retry-with-reconnect loop, including the connection's non-reentrant
  write lock `c.mu`, whose re-acquisition inside the retry path is a
  self-deadlock (modelled as an explicit never-returns outcome);
* `convertValue` / `rowsNext` (result.go) — row-cursor value normalization.

Network effects are abstracted as oracle functions: `probe` models
`queryNodeStatus` (one status request to one node), `dial` models
`createClient` (open + liveness check against one node), `execAt` models
`WriteOneParameterized` / `QueryOneParameterized` on a given attempt against
the currently bound node.  Time is a natural number supplied by the caller
(`now`); durations are natural numbers in the same unit.
-/

/-! ## String helpers (models of Go's strings package operations)

Go's `strings.Split`, `strings.Contains`, `strings.TrimPrefix`,
`strings.TrimSpace`, `strings.HasPrefix` are modelled over `List Char`
with total structural recursion so that all proofs compute.
-/

/-- Auxiliary for `splitOnChar`: split a character list at every occurrence
of `sep`, accumulating the current chunk in reverse. -/
def splitCharsAux (sep : Char) : List Char → List Char → List (List Char)
  | [], acc => [acc.reverse]
  | c :: cs, acc =>
    if c = sep then acc.reverse :: splitCharsAux sep cs []
    else splitCharsAux sep cs (c :: acc)

/-- Model of Go `strings.Split(s, sep)` for a single-character separator:
`splitOnChar "" c = [""]`, and separators at the ends produce empty parts,
exactly as in Go. -/
def splitOnChar (s : String) (sep : Char) : List String :=
  (splitCharsAux sep s.toList []).map String.mk

/-- Model of Go `strings.Contains(s, string(c))` for a single character. -/
def containsChar (s : String) (c : Char) : Bool :=
  s.toList.contains c

/-- Auxiliary for `strStarts`: list-level prefix test. -/
def startsWithChars : List Char → List Char → Bool
  | _, [] => true
  | [], _ :: _ => false
  | c :: cs, p :: ps => c = p && startsWithChars cs ps

/-- Model of Go `strings.HasPrefix`. -/
def strStarts (s p : String) : Bool :=
  startsWithChars s.toList p.toList

/-- Model of Go `strings.TrimPrefix`: removes `p` from the front of `s`
when present, otherwise returns `s` unchanged. -/
def trimPref (s p : String) : String :=
  if strStarts s p then String.mk (s.toList.drop p.toList.length) else s

/-- ASCII whitespace test; Go's `strings.TrimSpace` trims Unicode
whitespace, restricted here to the ASCII whitespace characters (the DSN
grammar never contains other whitespace). -/
def isSpaceChar (c : Char) : Bool :=
  c = ' ' || c = '\t' || c = '\n' || c = '\r'

/-- Model of Go `strings.TrimSpace` (ASCII whitespace). -/
def trimSpaceStr (s : String) : String :=
  String.mk (((s.toList.dropWhile isSpaceChar).reverse.dropWhile isSpaceChar).reverse)

/-! ## Durations

`time.ParseDuration` belongs to the Go standard library, an external
collaborator of this repository.  It is modelled for the forms the driver's
DSN grammar uses: a nonempty decimal integer immediately followed by one
unit among ns/us/ms/s/m/h.  Durations are in nanoseconds, as in Go. -/

/-- Nanoseconds per duration unit, matching Go's `time` package constants. -/
def durationUnitNs (u : String) : Option Nat :=
  if u = "ns" then some 1
  else if u = "us" then some 1000
  else if u = "ms" then some 1000000
  else if u = "s" then some 1000000000
  else if u = "m" then some 60000000000
  else if u = "h" then some 3600000000000
  else none

/-- Decimal digits to a natural number (most significant first). -/
def digitsToNat : List Char → Nat → Nat
  | [], acc => acc
  | c :: cs, acc => digitsToNat cs (acc * 10 + (c.toNat - '0'.toNat))

/-- Model of the Go standard library `time.ParseDuration` (external to this
repository), restricted to a nonempty decimal integer followed by a single
unit; the richer forms Go accepts are not exercised by the driver's spec. -/
def parseDuration (s : String) : Option Nat :=
  let cs := s.toList
  let ds := cs.takeWhile Char.isDigit
  let rest := cs.dropWhile Char.isDigit
  if ds = [] then none
  else
    match durationUnitNs (String.mk rest) with
    | some u => some (digitsToNat ds 0 * u)
    | none => none

/-! ## Config and ParseDSN (driver.go) -/

/-- Config from driver.go: node list, credentials, timeout (nanoseconds),
consistency level. -/
structure Config where
  nodes : List String
  username : String
  password : String
  timeout : Nat
  consistencyLevel : String
deriving DecidableEq

/-- Default timeout, 30 seconds in nanoseconds (driver.go line 31). -/
def defaultTimeoutNs : Nat := 30 * 1000000000

/-- One iteration of the parameter loop in ParseDSN (driver.go lines 75-90):
a pair that does not split into exactly two parts on the equals sign is
skipped (`continue` in Go); known keys update the config, unknown keys are
ignored; an unparsable timeout value keeps the current timeout. -/
def applyParam (cfg : Config) (param : String) : Config :=
  match splitOnChar param '=' with
  | [k, v] =>
    if k = "consistency" then { cfg with consistencyLevel := v }
    else if k = "timeout" then
      match parseDuration v with
      | some d => { cfg with timeout := d }
      | none => cfg
    else cfg
  | _ => cfg

/-- The parameter loop of ParseDSN, folded left over the split parameter
pairs in order. -/
def applyParams (cfg : Config) (params : List String) : Config :=
  params.foldl applyParam cfg

/-- Authentication section of ParseDSN (driver.go lines 47-63): when the
string contains an at sign it must split into exactly two parts; a colon in
the auth part splits it into username and password (Go indexes parts 0 and 1
of the split, so extra colons land in neither). -/
def parseAuth (cfg : Config) (dsn : String) : Except String (Config × String) :=
  if containsChar dsn '@' then
    match splitOnChar dsn '@' with
    | [authPart, rest] =>
      if containsChar authPart ':' then
        match splitOnChar authPart ':' with
        | u :: p :: _ => .ok ({ cfg with username := u, password := p }, rest)
        | _ => .ok ({ cfg with username := authPart }, rest)
      else .ok ({ cfg with username := authPart }, rest)
    | _ => .error "invalid dsn format"
  else .ok (cfg, dsn)

/-- Parameter section of ParseDSN (driver.go lines 66-91): when the string
contains a question mark it must split into exactly two parts; the right
part is split on ampersands and folded through `applyParam`. -/
def parseParams (cfg : Config) (dsn : String) : Except String (Config × String) :=
  if containsChar dsn '?' then
    match splitOnChar dsn '?' with
    | [host, params] => .ok (applyParams cfg (splitOnChar params '&'), host)
    | _ => .error "invalid dsn format"
  else .ok (cfg, dsn)

/-- Node normalization (driver.go lines 102-106): prepend the plain HTTP
scheme when no scheme is present. -/
def normalizeNode (node : String) : String :=
  if strStarts node "http://" || strStarts node "https://" then node
  else "http://" ++ node

/-- Node-list section of ParseDSN (driver.go lines 93-112): the remaining
string is split on commas; each entry is trimmed, empty entries are dropped,
the rest normalized; an empty remaining string or an empty resulting list is
a parse failure. -/
def parseNodes (cfg : Config) (dsn : String) : Except String Config :=
  if dsn = "" then .error "no nodes specified"
  else
    let ns := (((splitOnChar dsn ',').map trimSpaceStr).filter
      (fun n => n ≠ "")).map normalizeNode
    if ns = [] then .error "no valid nodes found"
    else .ok { cfg with nodes := ns }

/-- ParseDSN from driver.go: defaults (weak consistency, 30s timeout), empty
input rejected, optional scheme stripped, then the auth, parameter and node
sections in order. -/
def ParseDSN (dsn : String) : Except String Config :=
  let cfg : Config := ⟨[], "", "", defaultTimeoutNs, "weak"⟩
  if dsn = "" then .error "dsn cannot be empty"
  else
    let dsn1 := trimPref (trimPref dsn "sqlite://") "rqlite://"
    match parseAuth cfg dsn1 with
    | .error e => .error e
    | .ok (cfg2, dsn2) =>
      match parseParams cfg2 dsn2 with
      | .error e => .error e
      | .ok (cfg3, dsn3) => parseNodes cfg3 dsn3

/-! ## Cluster Topology Tracker (leader.go)

The probe oracle models `queryNodeStatus` (leader.go lines 75-120): one
status request to one node, returning the reported leader and peer list or
an error.  Transport, decoding and the empty-leader check are folded into
the oracle's error case; a malformed peer list yields an empty peer list on
the success side, as in the source. -/

/-- Result oracle for `queryNodeStatus`: node address to reported
(leader, peers) or error. -/
abbrev Probe : Type := String → Except String (String × List String)

/-- ClusterManager state from leader.go: seed node list, believed leader
(empty when unknown), peers from the last successful probe, time of the
last successful update (`none` models Go's zero `time.Time`), and the
update interval (30 seconds in `NewClusterManager`). -/
structure ClusterView where
  nodes : List String
  leader : String
  peers : List String
  lastUpdate : Option Nat
  updateInterval : Nat
deriving DecidableEq

/-- NewClusterManager (leader.go lines 39-45): empty leader and peers, zero
last-update time, 30-second update interval (in nanoseconds). -/
def NewClusterManager (nodes : List String) : ClusterView :=
  ⟨nodes, "", [], none, 30000000000⟩

/-- Model of `time.Since(lastUpdate) < updateInterval` (leader.go line 53):
the zero time (`none`) is astronomically far in the past, so the comparison
is false; otherwise natural subtraction `now - t` models the elapsed time
(a clock reading before the last update gives elapsed 0, within the
interval, matching Go's negative duration comparing below the interval). -/
def sinceLt (lastUpdate : Option Nat) (now interval : Nat) : Bool :=
  match lastUpdate with
  | none => false
  | some t => now - t < interval

/-- Error message of DiscoverLeader when every candidate fails
(leader.go line 71); with an empty node list the wrapped error is nil. -/
def discoverFailMsg : Option String → String
  | some e => "failed to discover leader from any node: " ++ e
  | none => "failed to discover leader from any node: %!w(<nil>)"

/-- The candidate loop of DiscoverLeader (leader.go lines 57-69): probe the
nodes in order carrying the last error, stopping at the first success.
Returns the loop's outcome together with the list of nodes actually probed,
in order. -/
def probeLoop (probe : Probe) :
    List String → Option String → Except String (String × List String) × List String
  | [], lastErr => (.error (discoverFailMsg lastErr), [])
  | n :: rest, _ =>
    match probe n with
    | .error e =>
      let r := probeLoop probe rest (some e)
      (r.1, n :: r.2)
    | .ok res => (.ok res, [n])

/-- DiscoverLeader (leader.go lines 47-72): a no-op success when the last
update is within the update interval; otherwise run the candidate loop over
the seed node list and on the first success install that probe's leader,
peers and timestamp together; on total failure leave the state untouched.
Returns the new state, the result, and the probe trace. -/
def DiscoverLeader (probe : Probe) (now : Nat) (cm : ClusterView) :
    ClusterView × Except String Unit × List String :=
  if sinceLt cm.lastUpdate now cm.updateInterval then (cm, .ok (), [])
  else
    match probeLoop probe cm.nodes none with
    | (.ok (l, ps), tr) =>
      ({ cm with leader := l, peers := ps, lastUpdate := some now }, .ok (), tr)
    | (.error e, tr) => (cm, .error e, tr)

/-- ForceRefresh (leader.go lines 207-213): reset the last update time to
the zero time, then DiscoverLeader. -/
def ForceRefresh (probe : Probe) (now : Nat) (cm : ClusterView) :
    ClusterView × Except String Unit × List String :=
  DiscoverLeader probe now { cm with lastUpdate := none }

/-- GetAllNodes (leader.go lines 137-155): the set of known nodes — the
leader when non-empty together with the peers.  Go builds a map keyed by
address and iterates it in unspecified order; the model returns the
deduplicated list, and properties are stated at the set level
(membership and no-duplicates). -/
def GetAllNodes (cm : ClusterView) : List String :=
  ((if cm.leader ≠ "" then [cm.leader] else []) ++ cm.peers).dedup

/-- SelectBestNode (leader.go lines 158-185): for strong consistency return
the leader when known; the code then falls through to the weak/none policy —
leader when known, else the first peer, else the first configured node,
else empty. -/
def SelectBestNode (cm : ClusterView) (consistencyLevel : String) : String :=
  if consistencyLevel = "strong" ∧ cm.leader ≠ "" then cm.leader
  else if cm.leader ≠ "" then cm.leader
  else
    match cm.peers with
    | p :: _ => p
    | [] =>
      match cm.nodes with
      | n :: _ => n
      | [] => ""

/-- A sequence of DiscoverLeader calls at the given clock readings,
threading the cluster state; returns the final state, the list of results,
and the concatenated probe trace. -/
def discoverSeq (probe : Probe) :
    ClusterView → List Nat → ClusterView × List (Except String Unit) × List String
  | cm, [] => (cm, [], [])
  | cm, now :: rest =>
    let s := DiscoverLeader probe now cm
    let r := discoverSeq probe s.1 rest
    (r.1, s.2.1 :: r.2.1, s.2.2 ++ r.2.2)

/-! ## Resilient Operation Executor (connection.go)

The dial oracle models `createClient` (connection.go lines 95-126):
`gorqlite.Open` plus the `SELECT 1` liveness check against one node; on
success the node becomes the bound client. -/

/-- Result oracle for `createClient`: node address to success or error. -/
abbrev Dial : Type := String → Except String Unit

/-- Conn state from connection.go: the parsed config's node list and
consistency level, the embedded ClusterManager state, the address the live
client is bound to (`none` when no client), and the closed flag. -/
structure ConnState where
  cfgNodes : List String
  consistency : String
  cm : ClusterView
  client : Option String
  closed : Bool
deriving DecidableEq

/-- The candidate list of connectToAnyNode (connection.go lines 70-73):
all known nodes, or the configured seed list when none are known. -/
def connectCandidates (c : ConnState) : List String :=
  let ns := GetAllNodes c.cm
  if ns = [] then c.cfgNodes else ns

/-- The dial loop of connectToAnyNode (connection.go lines 75-91): dial the
candidates in order carrying the last error; the first success is the
newly bound node; with no candidates at all the error is distinct. -/
def dialLoop (dial : Dial) : List String → Option String → Except String String
  | [], lastErr =>
    match lastErr with
    | some e => .error ("failed to connect to any node: " ++ e)
    | none => .error "no nodes available"
  | n :: rest, _ =>
    match dial n with
    | .error e => dialLoop dial rest (some e)
    | .ok _ => .ok n

/-- connectToAnyNode (connection.go lines 69-92): dial the candidates in
order; on success bind the client to that node, on failure leave the state
unchanged and report the error. -/
def connectToAnyNode (dial : Dial) (c : ConnState) : ConnState × Except String Unit :=
  match dialLoop dial (connectCandidates c) none with
  | .ok n => ({ c with client := some n }, .ok ())
  | .error e => (c, .error e)

/-- connect (connection.go lines 38-66).  Its first statement acquires the
connection's write lock `c.mu` (line 39, released by a deferred unlock):
`muHeld` says whether the calling goroutine already holds that
non-reentrant `sync.RWMutex`; when it does, the `Lock` call blocks
forever, so connect never returns — modelled as `none`.  With the lock
acquired: fail when closed; run DiscoverLeader (the throttle-respecting
refresh — not ForceRefresh); if discovery failed, fall back to
connectToAnyNode; otherwise dial the node selected by SelectBestNode when
non-empty, falling back to connectToAnyNode when that dial fails or no
node was selected.  A completed call returns the new state, the result,
and the probe trace of the embedded refresh. -/
def connect (dial : Dial) (probe : Probe) (now : Nat) (muHeld : Bool) (c : ConnState) :
    Option (ConnState × Except String Unit × List String) :=
  if muHeld then none
  else if c.closed then some (c, .error "connection is closed", [])
  else
    let d := DiscoverLeader probe now c.cm
    let c1 := { c with cm := d.1 }
    match d.2.1 with
    | .error _ =>
      let a := connectToAnyNode dial c1
      some (a.1, a.2, d.2.2)
    | .ok _ =>
      let leader := SelectBestNode d.1 c.consistency
      if leader ≠ "" then
        match dial leader with
        | .ok _ => some ({ c1 with client := some leader }, .ok (), d.2.2)
        | .error _ =>
          let a := connectToAnyNode dial c1
          some (a.1, a.2, d.2.2)
      else
        let a := connectToAnyNode dial c1
        some (a.1, a.2, d.2.2)

/-- reconnect (connection.go lines 129-136): close and drop the current
client, then connect.  reconnect takes no lock of its own; the caller's
lock state `muHeld` is passed through to connect, which is where the lock
is (re-)acquired. -/
def reconnect (dial : Dial) (probe : Probe) (now : Nat) (muHeld : Bool) (c : ConnState) :
    Option (ConnState × Except String Unit × List String) :=
  connect dial probe now muHeld { c with client := none }

/-- Outcome of ExecContext / QueryContext.  `notConnected` is the
"connection is closed" error when no client is bound on entry;
`deadlock` records that the operation never returns: the retry branch
calls reconnect while the goroutine already holds the connection's
non-reentrant write lock, and the inner connect blocks forever
re-acquiring it; `attemptFailure` carries the raw error of the final
attempt (the `return nil, err` at attempts == 2, unreachable past a first
failure because of the deadlock); `reconnectFailure` carries a failed
reconnect's error (`return nil, reconnectErr`, likewise unreachable);
`nilClient` marks the nil-pointer dereference Go would hit if a completed
reconnect left a nil client; `maxRetryExceeded` is the
`errors.New("max retry attempts exceeded")` after the loop (unreachable:
every iteration returns or blocks). -/
inductive ExecOutcome (α : Type) where
  | success (r : α)
  | notConnected
  | deadlock
  | reconnectFailure (e : String)
  | attemptFailure (e : String)
  | nilClient
  | maxRetryExceeded
deriving DecidableEq

/-- Trace of one ExecContext call: connection state, outcome, probe trace
of all embedded refreshes, and the number of remote execute attempts
actually made.  Under a `deadlock` outcome the call never returns; the
trace then records the state at the moment the goroutine blocked, the
attempts made before blocking, and the probes sent before blocking (none:
the block happens before the embedded refresh could start). -/
structure ExecTrace (α : Type) where
  conn : ConnState
  outcome : ExecOutcome α
  probes : List String
  attempts : Nat
deriving DecidableEq

/-- The retry loop of ExecContext (connection.go lines 205-229), also the
loop of QueryContext (lines 251-275), which is structurally identical.
`execAt i node` models `WriteOneParameterized` (resp.
`QueryOneParameterized`) on attempt `i` against the bound node `node`; the
attempt index lets the oracle express a remote cluster whose behaviour
changes between attempts.  The loop is encoded structurally on the number
of remaining iterations: a call with `attempts` made so far carries
`remaining = 3 - attempts`, so Go's `attempts < 2` guard is
`remaining > 1`, i.e. `0 < rem` under the `rem + 1` pattern.

The retry branch first takes the connection's write lock `c.mu`
(connection.go line 213) and calls reconnect while holding it (line 214):
reconnect is therefore invoked with the lock held, and its inner connect
blocks forever re-acquiring the same non-reentrant lock — the `none`
case, recorded as a `deadlock` outcome.  The remaining reconnect cases
mirror the source text (lines 215-221: rebind the client and continue, or
`return nil, reconnectErr`) but are unreachable, since a reconnect under
the held lock never completes. -/
def execLoop (execAt : Nat → String → Except String α) (dial : Dial) (probe : Probe)
    (now : Nat) : Nat → Nat → ConnState → String → ExecTrace α
  | _, 0, c, _ => ⟨c, .maxRetryExceeded, [], 0⟩
  | attempts, rem + 1, c, client =>
    match execAt attempts client with
    | .ok r => ⟨c, .success r, [], 1⟩
    | .error e =>
      if 0 < rem then
        match reconnect dial probe now true c with
        | some (c', .ok _, tr) =>
          match c'.client with
          | some cl =>
            let t := execLoop execAt dial probe now (attempts + 1) rem c' cl
            ⟨t.conn, t.outcome, tr ++ t.probes, t.attempts + 1⟩
          | none => ⟨c', .nilClient, tr, 1⟩
        | some (c', .error re, tr) => ⟨c', .reconnectFailure re, tr, 1⟩
        | none => ⟨c, .deadlock, [], 1⟩
      else ⟨c, .attemptFailure e, [], 1⟩

/-- ExecContext (connection.go lines 189-232): read the bound client — when
none, fail with the not-connected error; otherwise run the bounded retry
loop with 3 total attempts.  QueryContext (lines 235-278) has the identical
structure and is modelled by the same function. -/
def ExecContext (execAt : Nat → String → Except String α) (dial : Dial) (probe : Probe)
    (now : Nat) (c : ConnState) : ExecTrace α :=
  match c.client with
  | none => ⟨c, .notConnected, [], 0⟩
  | some cl => execLoop execAt dial probe now 0 3 c cl

/-! ## Row cursor and value conversion (result.go) -/

/-- Go values as delivered by the remote query result, tagged with their Go
dynamic type.  Integer payloads are mathematical integers (signed types) or
naturals (unsigned types); a well-formed value stays within its type's
range.  Float payloads carry the exact real value of the Go float as a
rational (every float32 is exactly representable as a float64, so the
float32-to-float64 conversion in the source is value-preserving).  `goOther`
carries the reflect-based string rendering the default branch of
`convertToString` would produce. -/
inductive GoVal where
  | null
  | goBool (b : Bool)
  | goInt (v : Int)
  | goInt8 (v : Int)
  | goInt16 (v : Int)
  | goInt32 (v : Int)
  | goInt64 (v : Int)
  | goUint (v : Nat)
  | goUint8 (v : Nat)
  | goUint16 (v : Nat)
  | goUint32 (v : Nat)
  | goUint64 (v : Nat)
  | goFloat32 (x : Rat)
  | goFloat64 (x : Rat)
  | goString (s : String)
  | goBytes (bs : List Nat)
  | goTime (t : Nat)
  | goOther (s : String)
deriving DecidableEq

/-- Go's `int64(v)` conversion for a 64-bit unsigned value: two's-complement
reinterpretation — values below 2^63 are preserved, larger values wrap to
negatives by subtracting 2^64. -/
def int64OfUint64 (v : Nat) : Int :=
  if v < 2 ^ 63 then (v : Int) else (v : Int) - 2 ^ 64

/-- convertValue (result.go): nil and bool pass through; every signed
integer type and every unsigned type narrower than 64 bits converts to
int64 preserving its value (`int64(v)` is a widening conversion there);
`uint` and `uint64` convert by two's-complement reinterpretation; float32
widens to float64 exactly; string, byte slice and time pass through; other
types fall to the reflect-based string rendering. -/
def convertValue : GoVal → GoVal
  | .null => .null
  | .goBool b => .goBool b
  | .goInt v => .goInt64 v
  | .goInt8 v => .goInt64 v
  | .goInt16 v => .goInt64 v
  | .goInt32 v => .goInt64 v
  | .goInt64 v => .goInt64 v
  | .goUint v => .goInt64 (int64OfUint64 v)
  | .goUint8 v => .goInt64 (v : Int)
  | .goUint16 v => .goInt64 (v : Int)
  | .goUint32 v => .goInt64 (v : Int)
  | .goUint64 v => .goInt64 (int64OfUint64 v)
  | .goFloat32 x => .goFloat64 x
  | .goFloat64 x => .goFloat64 x
  | .goString s => .goString s
  | .goBytes bs => .goBytes bs
  | .goTime t => .goTime t
  | .goOther s => .goString s

/-- A value is in the normalized driver.Value shape: nil, bool, int64,
float64, string, byte slice, or time — never a narrower integer type, an
unsigned type, a float32, or an unconverted other value. -/
def isNormalized : GoVal → Bool
  | .null => true
  | .goBool _ => true
  | .goInt64 _ => true
  | .goFloat64 _ => true
  | .goString _ => true
  | .goBytes _ => true
  | .goTime _ => true
  | _ => false

/-- Rows state from result.go: the remaining rows of the query result and
the closed flag.  `Scan` into a fresh slice of the row's width always
succeeds and is modelled as delivering the row's values. -/
structure RowsState where
  rows : List (List GoVal)
  closed : Bool
deriving DecidableEq

/-- Result of one `Rows.Next` call: end of rows, or one row of values. -/
inductive NextResult where
  | eof
  | row (vals : List GoVal)
deriving DecidableEq

/-- Rows.Next (result.go lines 49-72): EOF when closed or when no row
remains; otherwise scan the next row and convert every cell through
`convertValue` before handing it to the caller. -/
def rowsNext : RowsState → RowsState × NextResult
  | ⟨rs, true⟩ => (⟨rs, true⟩, .eof)
  | ⟨[], false⟩ => (⟨[], false⟩, .eof)
  | ⟨vs :: rest, false⟩ => (⟨rest, false⟩, .row (vs.map convertValue))

/-! ## Theorems -/

/-- Helper: the candidate loop, when every node in the list fails, probes
the whole list in order, leaves no success, and reports an error. -/
theorem probeLoop_all_fail (probe : Probe) (l : List String)
    (hf : ∀ n ∈ l, ∃ e, probe n = Except.error e) :
    ∀ le : Option String, ∃ e, probeLoop probe l le = (Except.error e, l) := by
  induction l with
  | nil => intro le; exact ⟨discoverFailMsg le, rfl⟩
  | cons n rest ih =>
    intro le
    obtain ⟨e, he⟩ := hf n (by simp)
    obtain ⟨e2, he2⟩ := ih (fun m hm => hf m (by simp [hm])) (some e)
    exact ⟨e2, by simp [probeLoop, he, he2]⟩

/-- C1 (code bug evidence): with the leader unknown, `SelectBestNode "strong"`
falls through to the weak/none policy and returns the first peer when peers
are known, and the first seed node when none are — never the empty string
the spec requires. -/
theorem selectBestNode_strong_substitutes_peer :
    SelectBestNode ⟨["http://seed:4001"], "", ["http://peer:4001"], none, 30⟩ "strong"
        = "http://peer:4001" ∧
    SelectBestNode ⟨["http://seed:4001"], "", [], none, 30⟩ "strong" = "http://seed:4001" ∧
    "http://peer:4001" ≠ "" := by
  refine ⟨rfl, rfl, by decide⟩

/-- C8: parsing the full DSN round-trip scenario yields exactly the nodes,
credentials, consistency level and 45-second timeout the spec states. -/
theorem parseDSN_roundtrip :
    ParseDSN "user:pass@host1:4001,host2:4002?consistency=strong&timeout=45s" =
      Except.ok ⟨["http://host1:4001", "http://host2:4002"], "user", "pass",
        45000000000, "strong"⟩ := by
  rfl

/-- C9 (counterexample): a DSN whose parameter section is a single pair that
does not split into two parts on the equals sign parses successfully with
defaults — it is not a parse failure as the claim states. -/
theorem parseDSN_malformed_param_accepted :
    ParseDSN "host1:4001?consistency" =
      Except.ok ⟨["http://host1:4001"], "", "", 30000000000, "weak"⟩ ∧
    (splitOnChar "consistency" '=').length ≠ 2 := by
  exact ⟨rfl, by decide⟩

/-- C9 (amended): a parameter pair that does not split into exactly two
parts on the equals sign is skipped by the parameter loop: the parse result
is the same as if the pair were absent. -/
theorem malformed_param_pair_skipped (cfg : Config) (ps1 ps2 : List String) (bad : String)
    (h : (splitOnChar bad '=').length ≠ 2) :
    applyParams cfg (ps1 ++ bad :: ps2) = applyParams cfg (ps1 ++ ps2) := by
  have hb : ∀ c : Config, applyParam c bad = c := by
    intro c
    rcases hs : splitOnChar bad '=' with _ | ⟨k, _ | ⟨v, _ | ⟨w, rest⟩⟩⟩
    · simp [applyParam, hs]
    · simp [applyParam, hs]
    · simp [hs] at h
    · simp [applyParam, hs]
  simp [applyParams, List.foldl_append, hb]

/-- C9 (witness for the amended theorem): dropping the malformed pair
`consistency` from a concrete parameter list leaves the fold unchanged. -/
theorem malformed_param_pair_skipped_witness :
    (splitOnChar "consistency" '=').length ≠ 2 ∧
    applyParams ⟨[], "", "", defaultTimeoutNs, "weak"⟩ ([] ++ "consistency" :: ["timeout=45s"]) =
      applyParams ⟨[], "", "", defaultTimeoutNs, "weak"⟩ ([] ++ ["timeout=45s"]) :=
  ⟨by decide,
    malformed_param_pair_skipped ⟨[], "", "", defaultTimeoutNs, "weak"⟩ [] ["timeout=45s"]
      "consistency" (by decide)⟩

/-- C10: the row cursor hands the caller exactly the scanned values mapped
through `convertValue`; every converted value is in normalized shape; and a
uint64 cell above 2^63 - 1 wraps to the negative int64 obtained by
subtracting 2^64. -/
theorem rows_values_normalized (vs : List GoVal) (rest : List (List GoVal)) (v : Nat)
    (h1 : 2 ^ 63 - 1 < v) (h2 : v < 2 ^ 64) :
    (rowsNext ⟨vs :: rest, false⟩).2 = NextResult.row (vs.map convertValue) ∧
    (∀ x ∈ vs.map convertValue, isNormalized x = true) ∧
    convertValue (.goUint64 v) = .goInt64 ((v : Int) - 2 ^ 64) ∧
    (v : Int) - 2 ^ 64 < 0 := by
  refine ⟨rfl, ?_, ?_, ?_⟩
  · intro x hx
    simp only [List.mem_map] at hx
    obtain ⟨y, _, rfl⟩ := hx
    cases y <;> rfl
  · have hge : ¬ v < 2 ^ 63 := by omega
    simp only [convertValue, int64OfUint64]
    rw [if_neg hge]
  · have : (v : Int) < 2 ^ 64 := by exact_mod_cast h2
    omega

/-- C10 (witness): the uint64 value 2^63 converts to the negative int64
2^63 - 2^64 = -2^63. -/
theorem rows_values_normalized_witness :
    convertValue (GoVal.goUint64 (2 ^ 63)) = GoVal.goInt64 (((2 ^ 63 : Nat) : Int) - 2 ^ 64) ∧
    (((2 ^ 63 : Nat) : Int) - 2 ^ 64) < 0 :=
  ⟨(rows_values_normalized [GoVal.goUint64 (2 ^ 63)] [] (2 ^ 63) (by norm_num) (by norm_num)).2.2.1,
   (rows_values_normalized [GoVal.goUint64 (2 ^ 63)] [] (2 ^ 63) (by norm_num) (by norm_num)).2.2.2⟩

/-- C4: any sequence of refresh calls each issued within less than the
update interval of a prior successful refresh is a chain of immediate
successes: the final view is the starting view, every result is success,
and no probe is sent anywhere in the sequence. -/
theorem throttle_property (probe : Probe) (cm : ClusterView) (t : Nat) (ts : List Nat)
    (h : cm.lastUpdate = some t) (hts : ∀ n ∈ ts, n - t < cm.updateInterval) :
    discoverSeq probe cm ts = (cm, ts.map fun _ => Except.ok (), []) := by
  induction ts with
  | nil => rfl
  | cons now rest ih =>
    have hst : sinceLt cm.lastUpdate now cm.updateInterval = true := by
      simp [sinceLt, h]
      exact hts now (by simp)
    have hd : DiscoverLeader probe now cm = (cm, .ok (), []) := by
      simp [DiscoverLeader, hst]
    simp [discoverSeq, hd, ih (fun n hn => hts n (by simp [hn]))]

/-- C4 (witness): three throttled calls at clock readings 105, 110, 129
after a success at 100 with a 30-unit interval change nothing and probe
nothing. -/
theorem throttle_property_witness :
    discoverSeq (fun _ => Except.error "down")
        ⟨["http://a"], "http://l", [], some 100, 30⟩ [105, 110, 129] =
      (⟨["http://a"], "http://l", [], some 100, 30⟩,
        [Except.ok (), Except.ok (), Except.ok ()], []) :=
  throttle_property (fun _ => Except.error "down")
    ⟨["http://a"], "http://l", [], some 100, 30⟩ 100 [105, 110, 129] rfl (by decide)

/-- C5: when a refresh is not throttled and every configured node's probe
fails, the refresh probes all candidates in order, reports an error, and
leaves the leader, peers, and last-update timestamp exactly as they were. -/
theorem failed_refresh_keeps_view (probe : Probe) (now : Nat) (cm : ClusterView)
    (hth : sinceLt cm.lastUpdate now cm.updateInterval = false)
    (hfail : ∀ n ∈ cm.nodes, ∃ e, probe n = Except.error e) :
    ∃ e, DiscoverLeader probe now cm = (cm, Except.error e, cm.nodes) := by
  obtain ⟨e, he⟩ := probeLoop_all_fail probe cm.nodes hfail none
  exact ⟨e, by simp [DiscoverLeader, hth, he]⟩

/-- C5 (witness): a non-throttled refresh over two unreachable nodes fails
and leaves the stale view intact. -/
theorem failed_refresh_keeps_view_witness :
    ∃ e, DiscoverLeader (fun _ => Except.error "down") 50
        ⟨["http://a", "http://b"], "http://x", ["http://y"], some 0, 30⟩ =
      (⟨["http://a", "http://b"], "http://x", ["http://y"], some 0, 30⟩,
        Except.error e, ["http://a", "http://b"]) :=
  failed_refresh_keeps_view (fun _ => Except.error "down") 50
    ⟨["http://a", "http://b"], "http://x", ["http://y"], some 0, 30⟩ rfl
    (fun _ _ => ⟨"down", rfl⟩)

/-- C6 (counterexample): with a known leader that is not in the seed list,
a non-throttled refresh probes only the seed list — the known leader is
never probed first (or at all), and the installed view comes from the seed
node's response, not the leader's. -/
theorem refresh_ignores_known_leader :
    DiscoverLeader
        (fun s => if s = "http://ldr" then Except.ok ("http://ldr", ["http://p"])
          else Except.ok ("http://b", ["http://c"]))
        100 ⟨["http://a"], "http://ldr", [], some 0, 30⟩ =
      (⟨["http://a"], "http://b", ["http://c"], some 100, 30⟩, Except.ok (), ["http://a"]) ∧
    "http://ldr" ∉ ["http://a"] := by
  exact ⟨rfl, by decide⟩

/-- C6 (amended): a non-throttled refresh probes the configured seed list in
order (regardless of any known leader), stops at the first node whose probe
succeeds, and installs that single response's leader, peers and timestamp
together; the nodes before it are exactly the failed probes. -/
theorem refresh_installs_first_success (probe : Probe) (now : Nat) (cm : ClusterView)
    (pre : List String) (n : String) (rest : List String) (l : String) (ps : List String)
    (hth : sinceLt cm.lastUpdate now cm.updateInterval = false)
    (hnodes : cm.nodes = pre ++ n :: rest)
    (hpre : ∀ m ∈ pre, ∃ e, probe m = Except.error e)
    (hn : probe n = Except.ok (l, ps)) :
    DiscoverLeader probe now cm =
      ({ cm with leader := l, peers := ps, lastUpdate := some now }, Except.ok (),
        pre ++ [n]) := by
  have aux : ∀ (pr : List String), (∀ m ∈ pr, ∃ e, probe m = Except.error e) →
      ∀ le : Option String, probeLoop probe (pr ++ n :: rest) le = (Except.ok (l, ps), pr ++ [n]) := by
    intro pr
    induction pr with
    | nil => intro _ le; simp [probeLoop, hn]
    | cons m pr ih =>
      intro hf le
      obtain ⟨e, he⟩ := hf m (by simp)
      simp [probeLoop, he, ih (fun x hx => hf x (by simp [hx])) (some e)]
  simp [DiscoverLeader, hth, hnodes, aux pre hpre none]

/-- C6 (witness for the amended theorem): the first seed fails, the second
answers, the third is never probed; the second's answer is installed whole. -/
theorem refresh_installs_first_success_witness :
    DiscoverLeader
        (fun s => if s = "http://a" then Except.error "down"
          else Except.ok ("http://L", ["http://p"]))
        5 ⟨["http://a", "http://b", "http://c"], "", [], none, 30⟩ =
      (⟨["http://a", "http://b", "http://c"], "http://L", ["http://p"], some 5, 30⟩,
        Except.ok (), ["http://a", "http://b"]) :=
  refresh_installs_first_success
    (fun s => if s = "http://a" then Except.error "down"
      else Except.ok ("http://L", ["http://p"]))
    5 ⟨["http://a", "http://b", "http://c"], "", [], none, 30⟩
    ["http://a"] "http://b" ["http://c"] "http://L" ["http://p"]
    rfl rfl
    (by intro m hm; simp at hm; subst hm; exact ⟨"down", rfl⟩)
    rfl

/-- C7: the known-node set is exactly the union of the non-empty leader and
the peers, without duplicates; and when nothing is known yet (empty leader,
no peers) the connect path's candidate list falls back to the full
configured seed list. -/
theorem allKnownNodes_union_fallback (cm : ClusterView) (c : ConnState) :
    ((GetAllNodes cm).Nodup ∧
      (∀ x, x ∈ GetAllNodes cm ↔ ((cm.leader ≠ "" ∧ x = cm.leader) ∨ x ∈ cm.peers))) ∧
    (c.cm.leader = "" → c.cm.peers = [] → connectCandidates c = c.cfgNodes) := by
  refine ⟨⟨List.nodup_dedup _, ?_⟩, ?_⟩
  · intro x
    by_cases hl : cm.leader = "" <;> simp [GetAllNodes, hl, List.mem_dedup]
  · intro h1 h2
    simp [connectCandidates, GetAllNodes, h1, h2]

/-- C7 (witness): with nothing known the candidates are the seed list; with
a known leader and one peer, the peer is a member of the known-node set. -/
theorem allKnownNodes_union_fallback_witness :
    connectCandidates ⟨["http://s1", "http://s2"], "weak",
        ⟨["http://s1", "http://s2"], "", [], none, 30⟩, none, false⟩ =
      ["http://s1", "http://s2"] ∧
    "http://p" ∈ GetAllNodes ⟨[], "http://l", ["http://p"], none, 30⟩ :=
  ⟨(allKnownNodes_union_fallback ⟨[], "http://l", ["http://p"], none, 30⟩
      ⟨["http://s1", "http://s2"], "weak",
        ⟨["http://s1", "http://s2"], "", [], none, 30⟩, none, false⟩).2 rfl rfl,
   ((allKnownNodes_union_fallback ⟨[], "http://l", ["http://p"], none, 30⟩
      ⟨["http://s1", "http://s2"], "weak",
        ⟨["http://s1", "http://s2"], "", [], none, 30⟩, none, false⟩).1.2 "http://p").mpr
     (Or.inr (by simp))⟩

/-- Helper: a reconnect issued from the retry branch is issued while the
goroutine already holds the connection write lock (connection.go line
213), and connect immediately tries to acquire the same non-reentrant
lock (line 39), so the reconnect never returns. -/
theorem reconnect_locked_never_returns (dial : Dial) (probe : Probe) (now : Nat)
    (c : ConnState) : reconnect dial probe now true c = none := rfl

/-- Helper: whenever an attempt fails with retries remaining, the retry
branch deadlocks: exactly one more attempt was made, no probe was sent,
and the loop never completes. -/
theorem execLoop_retry_deadlocks (execAt : Nat → String → Except String α) (dial : Dial)
    (probe : Probe) (now : Nat) (att rem : Nat) (c : ConnState) (cl : String) (e : String)
    (hE : execAt att cl = Except.error e) (hrem : 0 < rem) :
    execLoop execAt dial probe now att (rem + 1) c cl = ⟨c, .deadlock, [], 1⟩ := by
  simp [execLoop, hE, hrem, reconnect_locked_never_returns]

/-- Helper: any execute operation whose first attempt fails blocks forever
in the retry branch after exactly one attempt and zero probes. -/
theorem execContext_deadlock_of_first_error (execAt : Nat → String → Except String α)
    (dial : Dial) (probe : Probe) (now : Nat) (c : ConnState) (cl : String) (e : String)
    (hcl : c.client = some cl) (hE : execAt 0 cl = Except.error e) :
    ExecContext execAt dial probe now c = ⟨c, ExecOutcome.deadlock, [], 1⟩ := by
  have h := execLoop_retry_deadlocks execAt dial probe now 0 2 c cl e hE (by omega)
  simp only [ExecContext, hcl]
  exact h

/-- C2 (code bug evidence): in exactly the claim's scenario — every attempt
fails and every dial succeeds, so the reconnects the claim assumes would
succeed — the operation self-deadlocks after the first failed attempt:
the retry branch takes the write lock (connection.go line 213) and the
reconnect's inner connect blocks re-acquiring it (line 39).  Only 1
attempt is ever made, never 3, and no RetriesExhausted (nor any other)
failure is returned: the call never returns. -/
theorem exec_exhausted_deadlocks (execAt : Nat → String → Except String α) (dial : Dial)
    (probe : Probe) (now : Nat) (c : ConnState) (cl : String) (errs : Nat → String)
    (hfail : ∀ i n, execAt i n = Except.error (errs i))
    (_hd : ∀ n, dial n = Except.ok ())
    (hcl : c.client = some cl) :
    ExecContext execAt dial probe now c = ⟨c, ExecOutcome.deadlock, [], 1⟩ :=
  execContext_deadlock_of_first_error execAt dial probe now c cl (errs 0) hcl (hfail 0 cl)

/-- C2 (witness): the concrete all-fail scenario — attempts would fail with
"boom0", "boom1", "boom2" and every dial succeeds — blocks after one
attempt instead of making three and returning an error. -/
theorem exec_exhausted_deadlocks_witness :
    ExecContext (fun i _ => (Except.error ("boom" ++ toString i) : Except String Unit))
        (fun _ => Except.ok ()) (fun _ => Except.error "down") 0
        ⟨["http://a"], "weak", ⟨["http://a"], "", [], none, 30⟩, some "http://a", false⟩
      = ⟨⟨["http://a"], "weak", ⟨["http://a"], "", [], none, 30⟩, some "http://a", false⟩,
          ExecOutcome.deadlock, [], 1⟩ :=
  exec_exhausted_deadlocks
    (fun i _ => (Except.error ("boom" ++ toString i) : Except String Unit))
    (fun _ => Except.ok ()) (fun _ => Except.error "down") 0
    ⟨["http://a"], "weak", ⟨["http://a"], "", [], none, 30⟩, some "http://a", false⟩
    "http://a" (fun i => "boom" ++ toString i) (fun _ _ => rfl) (fun _ => rfl) rfl

/-- C3 (code bug evidence): whenever an execute operation's first attempt
fails — the precondition of every retry the claim describes — the
operation hangs at the reconnect's inner lock acquisition: it never
refreshes the Tracker (no probe is sent), never reconnects and retries,
and never fails fast with a reconnect error; exactly one attempt is made
and the call never returns.  None of the claim's retry behaviour is
reachable. -/
theorem exec_retry_deadlocks (execAt : Nat → String → Except String α) (dial : Dial)
    (probe : Probe) (now : Nat) (c : ConnState) (cl : String) (e : String)
    (hcl : c.client = some cl) (hE : execAt 0 cl = Except.error e) :
    ExecContext execAt dial probe now c = ⟨c, ExecOutcome.deadlock, [], 1⟩ :=
  execContext_deadlock_of_first_error execAt dial probe now c cl e hcl hE

/-- C3 (witness): a concrete first-attempt failure with a fresh tracker
view and a dialable leader — the scenario in which the claim expects a
refresh, a reconnect and a successful retry — instead blocks forever after
the single attempt, with no probe sent. -/
theorem exec_retry_deadlocks_witness :
    ExecContext
        (fun i _ => if i = 0 then Except.error "lost leadership"
          else (Except.ok () : Except String Unit))
        (fun _ => Except.ok ()) (fun _ => Except.ok ("http://newleader", [])) 110
        ⟨["http://a"], "weak", ⟨["http://a"], "http://ldr", [], some 100, 30⟩,
          some "http://ldr", false⟩
      = ⟨⟨["http://a"], "weak", ⟨["http://a"], "http://ldr", [], some 100, 30⟩,
          some "http://ldr", false⟩, ExecOutcome.deadlock, [], 1⟩ :=
  exec_retry_deadlocks
    (fun i _ => if i = 0 then Except.error "lost leadership"
      else (Except.ok () : Except String Unit))
    (fun _ => Except.ok ()) (fun _ => Except.ok ("http://newleader", [])) 110
    ⟨["http://a"], "weak", ⟨["http://a"], "http://ldr", [], some 100, 30⟩,
      some "http://ldr", false⟩
    "http://ldr" "lost leadership" rfl rfl
